import Mathlib

/-!
Shallow embedding of `src/real_time_dashboard/app.py` (a Dash dashboard with
six fetch adapters and one callback per panel), together with proofs of the
specification claims about it.

Python-level conventions used throughout:
* A Python function body that may raise is modelled in the `Except PyErr`
  monad; a bare `try: ... except Exception: return sentinel` wrapper is the
  function `pyTryAll`.
* External HTTP calls (`requests.get(...).json()`, `yf.Ticker(...).history`)
  are oracles: an `Except PyErr body` argument chosen by the environment,
  `.error` meaning the call raised (network/parse failure).
* JSON dictionaries are association lists / structures with `Option` fields,
  `none` meaning the key is absent; subscripting an absent key raises
  `PyErr.keyError`.
* pandas DataFrames are lists of typed rows; prices and market caps are `ℚ`.
-/

/-- Python exception values that the embedded code can raise. -/
inductive PyErr where
  | keyError (key : String)
  | indexError
  | netError
  | jsonError
  | valueError
  deriving DecidableEq, Repr

/-- `try: body except Exception: return fallback` — every raised exception is
swallowed and replaced by the fallback value; the wrapped call itself never
raises. -/
def pyTryAll {α : Type} (body : Except PyErr α) (fallback : α) : Except PyErr α :=
  match body with
  | .ok v => .ok v
  | .error _ => .ok fallback

/-- Run a fallible computation at a call site, substituting a default if it
raised (the default is irrelevant for the adapters, which never raise). -/
def exceptValue {α : Type} (dflt : α) : Except PyErr α → α
  | .ok v => v
  | .error _ => dflt

instance {ε α : Type} [DecidableEq ε] [DecidableEq α] :
    DecidableEq (Except ε α) := fun x y =>
  match x, y with
  | .ok a, .ok b =>
      match decEq a b with
      | isTrue h => isTrue (h ▸ rfl)
      | isFalse h => isFalse fun c => h (Except.ok.inj c)
  | .error a, .error b =>
      match decEq a b with
      | isTrue h => isTrue (h ▸ rfl)
      | isFalse h => isFalse fun c => h (Except.error.inj c)
  | .ok _, .error _ => isFalse fun c => Except.noConfusion c
  | .error _, .ok _ => isFalse fun c => Except.noConfusion c

/-! ## Equity panel: `fetch_stock_data` and `update_stock` -/

/-- One row of the DataFrame returned by `yf.Ticker(t).history(...)` after
`reset_index()`: the `Datetime` and `Close` columns the callback reads. -/
structure StockRow where
  datetime : String
  close : ℚ
  deriving DecidableEq, Repr

/-- `fetch_stock_data` (app.py:26-34): the whole body sits in a
`try/except Exception` returning `pd.DataFrame()` (empty) on any failure.
`net` is the oracle for the `yfinance` history call. -/
def fetch_stock_data (net : Except PyErr (List StockRow)) :
    Except PyErr (List StockRow) :=
  pyTryAll net []

/-- The figure object `update_stock` returns to Dash. -/
inductive StockFigure where
  | noData
  | line (rows : List StockRow) (title : String)
  deriving DecidableEq, Repr

/-- Python `"%.2f"`-style rounding of a scaled value: round to nearest
integer, ties to even. -/
def roundHalfEven (q : ℚ) : ℤ :=
  if q - ⌊q⌋ < 1/2 then ⌊q⌋
  else if 1/2 < q - ⌊q⌋ then ⌊q⌋ + 1
  else if Even ⌊q⌋ then ⌊q⌋ else ⌊q⌋ + 1

/-- Exactly two decimal digits, for the fractional part `m < 100`. -/
def twoDigits (m : Nat) : String :=
  String.mk [Nat.digitChar (m / 10), Nat.digitChar (m % 10)]

/-- The integer-and-sign part of `"%.2f"` formatting of `q`. -/
def fmt2int (q : ℚ) : String :=
  (if roundHalfEven (q * 100) < 0 then "-" else "")
    ++ toString ((roundHalfEven (q * 100)).natAbs / 100)

/-- Python `f"{x:.2f}"`: fixed-point with exactly two digits after the
point, ties to even. -/
def fmt2 (q : ℚ) : String :=
  fmt2int q ++ "." ++ twoDigits ((roundHalfEven (q * 100)).natAbs % 100)

/-- `update_stock` (app.py:162-171): fetch, branch on `df.empty`, else plot
the series and format the last row (`df.iloc[-1]`) into the info string. -/
def update_stock (ticker : String) (net : Except PyErr (List StockRow)) :
    StockFigure × String :=
  match exceptValue [] (fetch_stock_data net) with
  | [] => (.noData, "No data for " ++ ticker)
  | r :: rs =>
      let latest := (r :: rs).getLast (List.cons_ne_nil r rs)
      (.line (r :: rs) (ticker ++ " Live Price"),
        "Last Updated: " ++ latest.datetime ++ " | Price: $" ++ fmt2 latest.close)

/-! ## Pandemic panel: `fetch_covid_data` and `update_covid` -/

/-- A JSON scalar in the disease.sh response body. -/
inductive CovidVal where
  | num (n : Nat)
  | str (s : String)
  deriving DecidableEq, Repr

/-- The JSON object body returned by the pandemic endpoint, as a Python
dict (association list). A well-formed stats record carries the keys
`country`, `cases`, `active`, `recovered`, `deaths`; an unknown-country
response carries only a `message` key. -/
def CovidBody : Type := List (String × CovidVal)

instance : DecidableEq CovidBody := by
  unfold CovidBody
  infer_instance

/-- Python dict subscription `d[k]`: `KeyError` when the key is absent. -/
def dictGet (d : CovidBody) (k : String) : Except PyErr CovidVal :=
  match d.lookup k with
  | some v => .ok v
  | none => .error (.keyError k)

/-- `fetch_covid_data` (app.py:36-43): return the parsed JSON body, or
`None` if the request/parse raised. -/
def fetch_covid_data (net : Except PyErr CovidBody) :
    Except PyErr (Option CovidBody) :=
  pyTryAll (net.map some) none

/-- Digit list is least-significant first; insert a comma after every
third digit, Python `f"{n:,}"` style. -/
def commaRev : List Char → List Char
  | [] => []
  | [a] => [a]
  | [a, b] => [a, b]
  | [a, b, c] => [a, b, c]
  | a :: b :: c :: rest => a :: b :: c :: ',' :: commaRev rest

/-- Python `f"{n:,}"` for a non-negative integer: decimal digits grouped in
threes with comma separators. -/
def natComma (n : Nat) : String :=
  String.mk (commaRev (toString n).data.reverse).reverse

/-- Python `f"{v:,}"`: thousands-separator formatting, a `ValueError` when
the value is a string (the `,` format spec is invalid for `str`). -/
def pyFormatComma (v : CovidVal) : Except PyErr String :=
  match v with
  | .num n => .ok (natComma n)
  | .str _ => .error .valueError

/-- Python `f"{v}"`: plain string conversion, never raises. -/
def covidValStr : CovidVal → String
  | .num n => toString n
  | .str s => s

/-- What the covid callback hands to Dash: a warning paragraph or the
five-line info block. -/
inductive CovidRender where
  | warning (msg : String)
  | info (lines : List String)
  deriving DecidableEq, Repr

/-- `update_covid` (app.py:180-190): fetch, test `if not data:` (Python
falsiness: `None` or the empty dict), then build the five formatted lines
left to right; a missing key raises `KeyError` out of the callback, since
`update_covid` has no try/except of its own. -/
def update_covid (country : String) (net : Except PyErr CovidBody) :
    Except PyErr CovidRender :=
  match exceptValue none (fetch_covid_data net) with
  | none => .ok (.warning "⚠️ No data available.")
  | some d =>
      if d = ([] : CovidBody) then .ok (.warning "⚠️ No data available.")
      else do
        let c ← dictGet d "country"
        let cases ← dictGet d "cases" >>= pyFormatComma
        let active ← dictGet d "active" >>= pyFormatComma
        let recovered ← dictGet d "recovered" >>= pyFormatComma
        let deaths ← dictGet d "deaths" >>= pyFormatComma
        .ok (.info
          [ "Country: " ++ covidValStr c
          , "Cases: " ++ cases
          , "Active: " ++ active
          , "Recovered: " ++ recovered
          , "Deaths: " ++ deaths ])

/-! ## Weather panel: `fetch_weather` -/

/-- One entry of the geocoding response's `results` array. -/
structure GeoResult where
  latitude : ℚ
  longitude : ℚ
  deriving DecidableEq, Repr

/-- The geocoding JSON body: open-meteo omits the `results` key when the
city has no match (`none`), otherwise carries the match array. -/
structure GeoJson where
  results : Option (List GeoResult)
  deriving DecidableEq, Repr

/-- The current-conditions record of the forecast response. -/
structure CurrentWeather where
  temperature : ℚ
  windspeed : ℚ
  time : String
  deriving DecidableEq, Repr

/-- The forecast JSON body; `current_weather` may be absent. -/
structure WeatherJson where
  current_weather : Option CurrentWeather
  deriving DecidableEq, Repr

/-- The body of `fetch_weather` before its `except` clause, instrumented
with whether the second HTTP request (the forecast call) was issued.
`fcNet` is the forecast oracle as a function of the latitude/longitude
taken from `geo["results"][0]`. -/
def weatherBody (geoNet : Except PyErr GeoJson)
    (fcNet : ℚ → ℚ → Except PyErr WeatherJson) :
    Except PyErr CurrentWeather × Bool :=
  match geoNet with
  | .error e => (.error e, false)
  | .ok geo =>
      match geo.results with
      | none => (.error (.keyError "results"), false)
      | some [] => (.error .indexError, false)
      | some (r :: _) =>
          match fcNet r.latitude r.longitude with
          | .error e => (.error e, true)
          | .ok w =>
              match w.current_weather with
              | none => (.error (.keyError "current_weather"), true)
              | some cw => (.ok cw, true)

/-- `fetch_weather` (app.py:45-56): the two-step body under
`try/except Exception: return None`, paired with the forecast-call flag. -/
def fetch_weather (geoNet : Except PyErr GeoJson)
    (fcNet : ℚ → ℚ → Except PyErr WeatherJson) :
    Except PyErr (Option CurrentWeather) × Bool :=
  ((weatherBody geoNet fcNet).1.map some |>.tryCatch fun _ => .ok none,
    (weatherBody geoNet fcNet).2)

/-! ## Crypto panel: `fetch_crypto_data` and `update_crypto` -/

/-- One element of the coingecko markets array: the two columns the
callback plots. -/
structure Coin where
  name : String
  current_price : ℚ
  deriving DecidableEq, Repr

/-- `fetch_crypto_data` (app.py:58-66): parsed response rows as a
DataFrame, or an empty DataFrame if the request/parse raised. -/
def fetch_crypto_data (net : Except PyErr (List Coin)) :
    Except PyErr (List Coin) :=
  pyTryAll net []

/-- The figure `update_crypto` returns: empty `go.Figure()` or a bar
chart of (name, current_price). -/
inductive CryptoFigure where
  | emptyFig
  | bars (entries : List (String × ℚ))
  deriving DecidableEq, Repr

/-- The bar entries a figure displays (empty figure shows none). -/
def CryptoFigure.entries : CryptoFigure → List (String × ℚ)
  | .emptyFig => []
  | .bars es => es

/-- `update_crypto` (app.py:214-222): empty DataFrame → empty figure,
else one bar per row. -/
def update_crypto (net : Except PyErr (List Coin)) : CryptoFigure :=
  match exceptValue [] (fetch_crypto_data net) with
  | [] => .emptyFig
  | c :: cs => .bars ((c :: cs).map fun x => (x.name, x.current_price))

/-! ## Market-cap panel: `fetch_market_caps` -/

/-- The static dict literal of app.py:70-73, in insertion order. -/
def market_caps_raw : List (String × ℚ) :=
  [ ("Apple", 3.1), ("Microsoft", 2.8), ("Amazon", 1.9), ("Google", 2.0)
  , ("NVIDIA", 2.3), ("Meta", 1.3), ("Tesla", 0.9), ("Samsung", 0.6) ]

/-- Insert into a descending-by-cap list, keeping it descending. -/
def insertCapDesc (x : String × ℚ) : List (String × ℚ) → List (String × ℚ)
  | [] => [x]
  | y :: ys => if y.2 ≤ x.2 then x :: y :: ys else y :: insertCapDesc x ys

/-- `df.sort_values("MarketCap", ascending=False)`: sort rows by market
cap, largest first (all caps here are distinct, so order is unique). -/
def sortCapDesc : List (String × ℚ) → List (String × ℚ)
  | [] => []
  | x :: xs => insertCapDesc x (sortCapDesc xs)

/-- `fetch_market_caps` (app.py:68-75): purely static data sorted
descending; the function body performs no I/O and cannot raise. -/
def fetch_market_caps : Except PyErr (List (String × ℚ)) :=
  .ok (sortCapDesc market_caps_raw)

/-! ## News panel: `fetch_tech_news` and `update_news` -/

/-- One element of the search response's `hits` array; `none` fields model
absent keys. -/
structure Hit where
  title : Option String
  url : Option String
  deriving DecidableEq, Repr

/-- The news search JSON body; the `hits` key may be absent. -/
structure NewsJson where
  hits : Option (List Hit)
  deriving DecidableEq, Repr

/-- `item[k]` on a hit: `KeyError` when the key is absent. -/
def hitGet (field : Option String) (k : String) : Except PyErr String :=
  match field with
  | some s => .ok s
  | none => .error (.keyError k)

/-- The list comprehension of app.py:82, left to right: the first hit
missing `title` or `url` raises and aborts the whole comprehension. -/
def extractHits : List Hit → Except PyErr (List (String × String))
  | [] => .ok []
  | h :: rest =>
      match hitGet h.title "title" with
      | .error e => .error e
      | .ok t =>
          match hitGet h.url "url" with
          | .error e => .error e
          | .ok u =>
              match extractHits rest with
              | .error e => .error e
              | .ok tl => .ok ((t, u) :: tl)

/-- The body of `fetch_tech_news` before its `except` clause. -/
def newsBody (net : Except PyErr NewsJson) :
    Except PyErr (List (String × String)) :=
  match net with
  | .error e => .error e
  | .ok d =>
      match d.hits with
      | none => .error (.keyError "hits")
      | some hs => extractHits hs

/-- `fetch_tech_news` (app.py:77-84): the body under
`try/except Exception: return []`. -/
def fetch_tech_news (net : Except PyErr NewsJson) :
    Except PyErr (List (String × String)) :=
  pyTryAll (newsBody net) []

/-- What the news callback hands to Dash: the warning paragraph or the
list of link items. -/
inductive NewsRender where
  | warning (msg : String)
  | items (links : List (String × String))
  deriving DecidableEq, Repr

/-- `update_news` (app.py:239-247): fetch, then `if not news:` → warning,
else one link per headline. -/
def update_news (net : Except PyErr NewsJson) : NewsRender :=
  match exceptValue [] (fetch_tech_news net) with
  | [] => .warning "⚠️ No latest news available."
  | n :: ns => .items (n :: ns)

/-! ## The equity panel's refresh pipeline as an event sequence

Each trigger of the `update_stock` callback reads the ticker in the input
field, fetches, and — whenever the callback finishes — Dash replaces the
panel's output with that callback's return value. The code (app.py:154-171)
keeps no request counter and performs no staleness check, so a completion
is applied unconditionally in completion order. -/

/-- An event in the life of the stock panel: a new trigger with the ticker
read from the input field, or the completion of the fetch started by the
`reqIdx`-th trigger, delivering the fetched rows. -/
inductive StockEvent where
  | request (ticker : String)
  | complete (reqIdx : Nat) (rows : List StockRow)
  deriving DecidableEq, Repr

/-- The panel's state: the tickers of the triggers issued so far (in
request order) and the currently displayed figure/info, if any. -/
structure SchedState where
  requests : List String
  display : Option (StockFigure × String)
  deriving DecidableEq, Repr

/-- One scheduler step: a request records its ticker; a completion
overwrites the display with the corresponding callback output,
unconditionally (no stale-result guard exists in the code). -/
def schedStep (s : SchedState) : StockEvent → SchedState
  | .request t => { s with requests := s.requests ++ [t] }
  | .complete i rows =>
      match s.requests.get? i with
      | some t => { s with display := some (update_stock t (.ok rows)) }
      | none => s

/-- Run the panel from the initial state through a sequence of events. -/
def schedRun (events : List StockEvent) : SchedState :=
  events.foldl schedStep ⟨[], none⟩

/-- The last-writer-wins-by-request-order property claimed by the spec, at
the spec's own scenario shape: two requests, the newer one's fetch
completes first, the older one's fetch completes last; the display must
show the newer request's result. -/
def claimLastRequestWins : Prop :=
  ∀ (t1 t2 : String) (r1 r2 : List StockRow),
    (schedRun
      [ .request t1, .request t2, .complete 1 r2, .complete 0 r1 ]).display
      = some (update_stock t2 (.ok r2))

/-! ## Concrete inputs used by witnesses and counterexamples -/

/-- A well-formed stats body for India, mirroring the mocked response of
the end-to-end test in the spec. -/
def indiaBody : CovidBody :=
  [ ("country", .str "India"), ("cases", .num 1000), ("active", .num 100)
  , ("recovered", .num 880), ("deaths", .num 20) ]

/-- The well-formed JSON body disease.sh returns for an unknown country
with `strict=true`: only a `message` key, no stats keys. -/
def unknownCountryBody : CovidBody :=
  [ ("message", .str "Country not found or does not have any cases") ]

/-- A four-coin markets response in which one price is negative. -/
def negCoins : List Coin :=
  [ ⟨"bitcoin", -1⟩, ⟨"ethereum", 2⟩, ⟨"solana", 3⟩, ⟨"dogecoin", 4⟩ ]

/-- A four-coin markets response with non-negative prices. -/
def fourCoins : List Coin :=
  [ ⟨"bitcoin", 1⟩, ⟨"ethereum", 2⟩, ⟨"solana", 3⟩, ⟨"dogecoin", 4⟩ ]

/-- A hits array with one well-formed hit and one hit missing its `url`. -/
def mixedHits : List Hit :=
  [ ⟨some "Good title", some "https://example.com/a"⟩
  , ⟨some "Ask HN item", none⟩ ]

/-! ## General lemmas -/

theorem pyTryAll_isOk {α : Type} (body : Except PyErr α) (fallback : α) :
    (pyTryAll body fallback).isOk = true := by
  cases body <;> rfl

theorem pyTryAll_error {α : Type} (e : PyErr) (fallback : α) :
    pyTryAll (.error e) fallback = .ok fallback := rfl

example : natComma 1000 = "1,000" := by decide
example : natComma 1234567 = "1,234,567" := by decide
example : natComma 100 = "100" := by decide
example : natComma 0 = "0" := by decide
example : fmt2 (123.456 : ℚ) = "123.46" := by
  have h : roundHalfEven ((123.456 : ℚ) * 100) = 12346 := by
    unfold roundHalfEven
    norm_num
  unfold fmt2 fmt2int twoDigits
  rw [h]
  decide

example : fmt2 (7 : ℚ) = "7.00" := by
  have h : roundHalfEven ((7 : ℚ) * 100) = 700 := by
    unfold roundHalfEven
    norm_num
  unfold fmt2 fmt2int twoDigits
  rw [h]
  decide

/-! ## Claim theorems -/

/-- C2: every one of the six Data Client fetch functions returns normally
for every behaviour of its external HTTP call(s) — including the call
raising — and when the call raises it returns its typed empty/error
sentinel (empty DataFrame, `None`, or empty list); no exception ever
propagates to the caller. -/
theorem data_clients_never_raise
    (eS : Except PyErr (List StockRow)) (eC : Except PyErr CovidBody)
    (gN : Except PyErr GeoJson) (fN : ℚ → ℚ → Except PyErr WeatherJson)
    (eK : Except PyErr (List Coin)) (eN : Except PyErr NewsJson) (e : PyErr) :
    (fetch_stock_data eS).isOk = true ∧
    (fetch_covid_data eC).isOk = true ∧
    (fetch_weather gN fN).1.isOk = true ∧
    (fetch_crypto_data eK).isOk = true ∧
    fetch_market_caps.isOk = true ∧
    (fetch_tech_news eN).isOk = true ∧
    fetch_stock_data (.error e) = .ok [] ∧
    fetch_covid_data (.error e) = .ok none ∧
    (fetch_weather (.error e) fN).1 = .ok none ∧
    fetch_crypto_data (.error e) = .ok [] ∧
    fetch_tech_news (.error e) = .ok [] := by
  refine ⟨pyTryAll_isOk _ _, pyTryAll_isOk _ _, ?_, pyTryAll_isOk _ _, rfl,
    pyTryAll_isOk _ _, rfl, rfl, rfl, rfl, rfl⟩
  unfold fetch_weather
  cases h : (weatherBody gN fN).1 <;>
    simp [h, Except.tryCatch, Except.map, Except.isOk, Except.toBool]

/-- C3: evaluation of the covid pipeline at the failing input. When the
pandemic endpoint returns the well-formed unknown-country body (only a
`message` key), `fetch_covid_data` hands the body through unchanged — not
the `None` sentinel — the `if not data:` guard does not fire (a non-empty
dict is truthy), and `update_covid` raises `KeyError` at `data["country"]`
instead of rendering the no-data warning. A genuine network failure, by
contrast, does produce the warning. -/
theorem update_covid_unknown_country_raises :
    fetch_covid_data (.ok unknownCountryBody) = .ok (some unknownCountryBody) ∧
    update_covid "Wonderland" (.ok unknownCountryBody) =
      .error (.keyError "country") ∧
    update_covid "Wonderland" (.error .netError) =
      .ok (.warning "⚠️ No data available.") := by
  refine ⟨rfl, by decide, rfl⟩

/-- C7: for the mocked India stats record (cases 1000, active 100,
recovered 880, deaths 20), the rendered covid panel carries exactly the
lines "Cases: 1,000", "Active: 100", "Recovered: 880" and "Deaths: 20" —
counts formatted with thousands separators. -/
theorem update_covid_india_lines :
    update_covid "India" (.ok indiaBody) =
      .ok (.info
        [ "Country: India", "Cases: 1,000", "Active: 100"
        , "Recovered: 880", "Deaths: 20" ]) := by
  decide

/-- C8: whenever the news fetch yields zero hits — an empty `hits` array,
a missing `hits` key, or the request raising — the rendered news panel is
exactly the fixed no-news sentinel message, never a blank list and never
an error. -/
theorem update_news_zero_hits_sentinel (e : PyErr) :
    update_news (.ok ⟨some []⟩) = .warning "⚠️ No latest news available." ∧
    update_news (.ok ⟨none⟩) = .warning "⚠️ No latest news available." ∧
    update_news (.error e) = .warning "⚠️ No latest news available." := by
  exact ⟨rfl, rfl, rfl⟩

/-- C6: `fetch_market_caps` never fails and always returns the same fixed
8-row table, sorted in descending order of market cap. -/
theorem fetch_market_caps_static_sorted :
    fetch_market_caps =
      .ok [ ("Apple", 3.1), ("Microsoft", 2.8), ("NVIDIA", 2.3), ("Google", 2.0)
          , ("Amazon", 1.9), ("Meta", 1.3), ("Tesla", 0.9), ("Samsung", 0.6) ] ∧
    (exceptValue [] fetch_market_caps).length = 8 ∧
    List.Chain' (fun a b : String × ℚ => b.2 ≤ a.2)
      (exceptValue [] fetch_market_caps) := by
  have hsorted :
      sortCapDesc market_caps_raw =
        [ ("Apple", 3.1), ("Microsoft", 2.8), ("NVIDIA", 2.3), ("Google", 2.0)
        , ("Amazon", 1.9), ("Meta", 1.3), ("Tesla", 0.9), ("Samsung", 0.6) ] := by
    norm_num [market_caps_raw, sortCapDesc, insertCapDesc]
  refine ⟨?_, ?_, ?_⟩
  · unfold fetch_market_caps
    rw [hsorted]
  · unfold fetch_market_caps exceptValue
    rw [hsorted]
    rfl
  · unfold fetch_market_caps exceptValue
    rw [hsorted]
    norm_num [List.chain'_cons]

/-- C4: if the geocoding step returns zero results — the `results` key is
absent or the array is empty — `fetch_weather` never issues the forecast
request and returns the `None` sentinel; and whenever either step of the
body fails, the fetch returns `None`, never a partial result. -/
theorem fetch_weather_no_partial
    (geoNet : Except PyErr GeoJson)
    (fcNet : ℚ → ℚ → Except PyErr WeatherJson) :
    ((geoNet = .ok ⟨none⟩ ∨ geoNet = .ok ⟨some []⟩) →
       (fetch_weather geoNet fcNet).2 = false ∧
       (fetch_weather geoNet fcNet).1 = .ok none) ∧
    ((weatherBody geoNet fcNet).1.isOk = false →
       (fetch_weather geoNet fcNet).1 = .ok none) := by
  constructor
  · rintro (rfl | rfl) <;> exact ⟨rfl, rfl⟩
  · intro hfail
    unfold fetch_weather
    cases h : (weatherBody geoNet fcNet).1 with
    | error e => simp [h, Except.tryCatch, Except.map]
    | ok cw => rw [h] at hfail; simp [Except.isOk, Except.toBool] at hfail

/-- Witness for C4 at a concrete no-match geocoding response and a
concrete failing geocoding request. -/
theorem fetch_weather_no_partial_witness :
    (fetch_weather (.ok ⟨none⟩) (fun _ _ => .error .netError)).2 = false ∧
    (fetch_weather (.ok ⟨none⟩) (fun _ _ => .error .netError)).1 = .ok none ∧
    (fetch_weather (.error .netError) (fun _ _ => .error .netError)).1 =
      .ok none := by
  have h1 :=
    fetch_weather_no_partial (.ok ⟨none⟩) (fun _ _ => .error .netError)
  have h2 :=
    fetch_weather_no_partial (.error .netError) (fun _ _ => .error .netError)
  exact ⟨(h1.1 (Or.inl rfl)).1, (h1.1 (Or.inl rfl)).2, h2.2 rfl⟩

/-- C5: the equity panel's info text. An empty fetched series (empty
result or failure) yields the message "No data for \x7bticker\x7d"; a
non-empty series yields "Last Updated: T | Price: $P" where T and P come
from the last point of the series and P carries exactly two digits after
the decimal point. -/
theorem update_stock_info_spec (ticker : String)
    (net : Except PyErr (List StockRow)) :
    (exceptValue [] (fetch_stock_data net) = [] →
       (update_stock ticker net).2 = "No data for " ++ ticker) ∧
    (∀ last : StockRow,
       (exceptValue [] (fetch_stock_data net)).getLast? = some last →
       (update_stock ticker net).2 =
         "Last Updated: " ++ last.datetime ++ " | Price: $" ++
           fmt2 last.close ∧
       ∃ intPart fracPart : String,
         fmt2 last.close = intPart ++ "." ++ fracPart ∧
         fracPart.length = 2) := by
  constructor
  · intro h
    cases net with
    | error e => rfl
    | ok df =>
        have hdf : df = [] := h
        subst hdf
        rfl
  · intro last hlast
    cases net with
    | error e => simp [exceptValue, fetch_stock_data, pyTryAll] at hlast
    | ok df =>
        cases df with
        | nil => simp [exceptValue, fetch_stock_data, pyTryAll] at hlast
        | cons r rs =>
            have hl : (r :: rs).getLast (List.cons_ne_nil r rs) = last := by
              have hsome :=
                List.getLast?_eq_getLast_of_ne_nil (List.cons_ne_nil r rs)
              have hlast2 : (r :: rs).getLast? = some last := hlast
              rw [hsome] at hlast2
              exact Option.some.inj hlast2
            constructor
            · show "Last Updated: " ++
                  ((r :: rs).getLast (List.cons_ne_nil r rs)).datetime ++
                  " | Price: $" ++
                  fmt2 ((r :: rs).getLast (List.cons_ne_nil r rs)).close = _
              rw [hl]
            · exact ⟨fmt2int last.close,
                twoDigits ((roundHalfEven (last.close * 100)).natAbs % 100),
                rfl, rfl⟩

/-- Witness for C5: the empty branch at a failing fetch, and the non-empty
branch at a one-row series. -/
theorem update_stock_info_spec_witness :
    (update_stock "AAPL" (.error .netError)).2 = "No data for AAPL" ∧
    (update_stock "MSFT" (.ok [⟨"2025-01-01 10:00", 7⟩])).2 =
      "Last Updated: 2025-01-01 10:00 | Price: $" ++ fmt2 (7 : ℚ) := by
  have h1 := (update_stock_info_spec "AAPL" (.error .netError)).1 rfl
  have h2 := (update_stock_info_spec "MSFT"
    (.ok [⟨"2025-01-01 10:00", 7⟩])).2 ⟨"2025-01-01 10:00", 7⟩ rfl
  have hs : "Last Updated: " ++ "2025-01-01 10:00" ++ " | Price: $" =
      "Last Updated: 2025-01-01 10:00 | Price: $" := by decide
  constructor
  · exact h1
  · rw [h2.1]
    show "Last Updated: " ++ "2025-01-01 10:00" ++ " | Price: $" ++
        fmt2 (7 : ℚ) = _
    rw [hs]

/-- C9 counterexample: it is not true that every 4-coin response produces
entries with non-negative prices — the code copies the response prices
verbatim, so a response carrying a negative price yields a negative bar. -/
theorem update_crypto_nonneg_refuted :
    ¬ (∀ coins : List Coin, coins.length = 4 →
        ∀ p ∈ (update_crypto (.ok coins)).entries, 0 ≤ p.2) := by
  intro h
  have hmem : ("bitcoin", (-1 : ℚ)) ∈ (update_crypto (.ok negCoins)).entries := by
    simp [update_crypto, fetch_crypto_data, pyTryAll, exceptValue,
      CryptoFigure.entries, negCoins]
  have hge := h negCoins rfl ("bitcoin", -1) hmem
  exact absurd hge (by norm_num)

/-- C9 (amended): an empty or failed response yields the empty figure (not
an error state); a response with exactly 4 coins yields exactly 4 bar
entries, carrying exactly the response's names and prices — so whenever
the response's prices are all non-negative, every entry is non-negative. -/
theorem update_crypto_spec (e : PyErr) (coins : List Coin)
    (h4 : coins.length = 4)
    (hpos : ∀ c ∈ coins, 0 ≤ c.current_price) :
    update_crypto (.error e) = .emptyFig ∧
    update_crypto (.ok []) = .emptyFig ∧
    (update_crypto (.ok coins)).entries =
      coins.map (fun c => (c.name, c.current_price)) ∧
    (update_crypto (.ok coins)).entries.length = 4 ∧
    ∀ p ∈ (update_crypto (.ok coins)).entries, 0 ≤ p.2 := by
  have hent : (update_crypto (.ok coins)).entries =
      coins.map (fun c => (c.name, c.current_price)) := by
    cases coins with
    | nil => rfl
    | cons c cs => rfl
  refine ⟨rfl, rfl, hent, ?_, ?_⟩
  · rw [hent, List.length_map, h4]
  · intro p hp
    rw [hent] at hp
    obtain ⟨c, hc, rfl⟩ := List.mem_map.mp hp
    exact hpos c hc

/-- Witness for C9 (amended) at a concrete 4-coin response with
non-negative prices and a concrete failing request. -/
theorem update_crypto_spec_witness :
    update_crypto (.error .netError) = .emptyFig ∧
    update_crypto (.ok []) = .emptyFig ∧
    (update_crypto (.ok fourCoins)).entries.length = 4 ∧
    ∀ p ∈ (update_crypto (.ok fourCoins)).entries, 0 ≤ p.2 := by
  have h := update_crypto_spec .netError fourCoins rfl
    (by intro c hc; fin_cases hc <;> norm_num [fourCoins])
  exact ⟨h.1, h.2.1, h.2.2.2.1, h.2.2.2.2⟩

/-- Any hit missing its `title` or `url` key makes the whole comprehension
of `fetch_tech_news` raise `KeyError`. -/
theorem extractHits_err_of_bad (hs : List Hit)
    (hbad : ∃ h ∈ hs, h.title = none ∨ h.url = none) :
    ∃ err, extractHits hs = .error err := by
  induction hs with
  | nil =>
      obtain ⟨x, hx, _⟩ := hbad
      cases hx
  | cons h rest ih =>
      obtain ⟨x, hx, hxbad⟩ := hbad
      rcases List.mem_cons.mp hx with rfl | hxr
      · rcases hxbad with ht | hu
        · exact ⟨.keyError "title", by simp [extractHits, hitGet, ht]⟩
        · cases hT : x.title with
          | none => exact ⟨.keyError "title", by simp [extractHits, hitGet, hT]⟩
          | some t =>
              exact ⟨.keyError "url", by simp [extractHits, hitGet, hT, hu]⟩
      · obtain ⟨err, herr⟩ := ih ⟨x, hxr, hxbad⟩
        cases hT : h.title with
        | none => exact ⟨.keyError "title", by simp [extractHits, hitGet, hT]⟩
        | some t =>
            cases hU : h.url with
            | none => exact ⟨.keyError "url", by simp [extractHits, hitGet, hT, hU]⟩
            | some u => exact ⟨err, by simp [extractHits, hitGet, hT, hU, herr]⟩

/-- C10: headline extraction is all-or-nothing. If any hit of the response
lacks a `title` or `url` key, `fetch_tech_news` returns the empty list —
discarding every well-formed hit — and the panel shows the no-news
message; no partial subset of headlines is ever displayed. -/
theorem fetch_tech_news_all_or_nothing (hs : List Hit)
    (hbad : ∃ h ∈ hs, h.title = none ∨ h.url = none) :
    fetch_tech_news (.ok ⟨some hs⟩) = .ok [] ∧
    update_news (.ok ⟨some hs⟩) = .warning "⚠️ No latest news available." := by
  obtain ⟨err, herr⟩ := extractHits_err_of_bad hs hbad
  have hbody : newsBody (.ok ⟨some hs⟩) = extractHits hs := rfl
  have hfetch : fetch_tech_news (.ok ⟨some hs⟩) = .ok [] := by
    unfold fetch_tech_news
    rw [hbody, herr]
    rfl
  refine ⟨hfetch, ?_⟩
  unfold update_news
  rw [hfetch]
  rfl

/-- Witness for C10 at a response holding one well-formed hit and one hit
missing its `url`. -/
theorem fetch_tech_news_all_or_nothing_witness :
    fetch_tech_news (.ok ⟨some mixedHits⟩) = .ok [] ∧
    update_news (.ok ⟨some mixedHits⟩) =
      .warning "⚠️ No latest news available." :=
  fetch_tech_news_all_or_nothing mixedHits (by decide)

/-- C1 counterexample: last-writer-wins by request order does not hold.
In the spec's own scenario — request "AAPL", then request "GOOG", GOOG's
fetch completes first and AAPL's completes last — the panel ends up
displaying AAPL's result, not GOOG's: the code applies every completion
unconditionally, so the stale fetch overwrites the newer result. -/
theorem schedRun_not_last_request_wins : ¬ claimLastRequestWins := by
  intro h
  have hc := h "AAPL" "GOOG" [] []
  exact absurd hc (by decide)

/-- C1 (amended): the panel displays the result of the most recently
*completed* fetch, regardless of request order — a completion for any
earlier request, arriving after a newer request's completion, overwrites
the display with the older request's result. -/
theorem schedRun_last_completion_wins (pre : List StockEvent) (i : Nat)
    (rows : List StockRow) (t : String)
    (ht : (schedRun pre).requests.get? i = some t) :
    (schedRun (pre ++ [.complete i rows])).display =
      some (update_stock t (.ok rows)) := by
  have hstep : ∀ s : SchedState, s.requests.get? i = some t →
      schedStep s (.complete i rows) =
        { s with display := some (update_stock t (.ok rows)) } := by
    intro s hs
    simp only [schedStep]
    rw [hs]
  have happ : schedRun (pre ++ [.complete i rows]) =
      schedStep (schedRun pre) (.complete i rows) := by
    unfold schedRun
    rw [List.foldl_append, List.foldl_cons, List.foldl_nil]
  rw [happ, hstep _ ht]

/-- Witness for C1 (amended): in the two-request scenario with the stale
completion arriving last, the display is the stale (first) request's
result. -/
theorem schedRun_last_completion_wins_witness :
    (schedRun
      [ .request "AAPL", .request "GOOG", .complete 1 [], .complete 0 [] ]).display =
      some (update_stock "AAPL" (.ok [])) := by
  have h := schedRun_last_completion_wins
    [ .request "AAPL", .request "GOOG", .complete 1 [] ] 0 [] "AAPL" (by decide)
  exact h
